import Mathlib

/-!
Shallow embedding of the qcell TCell / TLCell implementation
(src/src/tcell.rs, src/src/tlcell_impl.rs).

Modelling conventions:
- A Rust `TypeId` is a natural number; the per-scope singleton registry
  (the thread-local `SINGLETON_CHECK` set in tcell.rs, the thread-local
  `OWNERS` set in tlcell_impl.rs) is a `HashSet<TypeId>`, modelled as a
  list of naturals with set-like insert and remove.
- A cell reference is modelled by its address (`Addr`), and the contents
  of all cells holding values of type `T` by a memory `Addr → T`; the
  `rw2` and `rw3` aliasing checks compare addresses exactly as the source
  compares `as *const _ as usize` pointers.
- A Rust panic (the `assert!` macro firing) is modelled by `none`;
  functions that can panic return an `Option` result together with the
  state they leave behind, since a failed `HashSet::insert` leaves the
  set unchanged and the panic unwinds past it.
-/

namespace QCell

/-- The runtime type identity of a marker type, `std::any::TypeId`. -/
abbrev TypeId := Nat

/-- A scope registry: the contents of one `HashSet<TypeId>`. -/
abbrev Registry := List TypeId

/-- A cell address (the `as *const _ as usize` value of a cell reference). -/
abbrev Addr := Nat

/-- The contents of all cells of value type `T`, indexed by address. -/
abbrev Mem (T : Type) := Addr → T

/-- Semantics of `HashSet::insert`: returns whether the element was newly
inserted, together with the updated set; inserting an element that is
already present returns `false` and leaves the set unchanged. -/
def hsInsert (reg : Registry) (q : TypeId) : Bool × Registry :=
  if q ∈ reg then (false, reg) else (true, q :: reg)

/-- Semantics of `HashSet::remove`: removes the element if present. -/
def hsRemove (reg : Registry) (q : TypeId) : Registry :=
  reg.filter (fun x => x != q)

/-- The `TCellOwner` value itself (tcell.rs lines 21-24): it holds only a
`PhantomData` marker, so it carries no runtime data. -/
structure TCellOwner

/-- The function `TCellOwner::<Q>::new` (tcell.rs lines 47-59): it inserts
the `TypeId` of the marker into the thread-local `SINGLETON_CHECK` set and
asserts that the insertion was fresh, panicking otherwise (`none`).  The
second component is the registry as left behind by the call. -/
def TCellOwner.new (q : TypeId) (reg : Registry) : Option TCellOwner × Registry :=
  let r := hsInsert reg q
  (if r.1 then some ⟨⟩ else none, r.2)

/-- The `Drop` impl for `TCellOwner` (tcell.rs lines 26-33): it removes the
`TypeId` of the marker from the thread-local `SINGLETON_CHECK` set. -/
def TCellOwner.dropOwner (q : TypeId) (reg : Registry) : Registry :=
  hsRemove reg q

/-- The cell type `TCell<Q, T>` (tcell.rs lines 137-141): a `PhantomData`
marker tag (type-level only) and the stored value in an `UnsafeCell`. -/
structure TCell (T : Type) where
  value : T

/-- The constructor `TCell::new` (tcell.rs lines 147-152): a `const fn`
that only builds the record around the given value. -/
def TCell.new {T : Type} (v : T) : TCell T :=
  { value := v }

/-- The method `TCellOwner::cell` (tcell.rs lines 65-67): it forwards to
`TCell::new`, using the owner reference only to fix the marker type. -/
def TCellOwner.cell {T : Type} (_o : TCellOwner) (v : T) : TCell T :=
  TCell.new v

/-- The constructor `TCell::new` with the thread registry threaded through:
the body (tcell.rs lines 147-152) never names `SINGLETON_CHECK`, so the
registry passes through untouched. -/
def TCell.newSt {T : Type} (v : T) (reg : Registry) : TCell T × Registry :=
  (TCell.new v, reg)

/-- The method `TCellOwner::ro` (tcell.rs lines 73-75) applied to a cell
value: it returns the contents with no runtime check. -/
def TCellOwner.roCell {T : Type} (c : TCell T) : T :=
  c.value

/-- The method `TCellOwner::ro` (tcell.rs lines 73-75) at the memory level:
it dereferences the cell storage at the given address, with no runtime
check. -/
def TCellOwner.ro {T : Type} (m : Mem T) (a : Addr) : T :=
  m a

/-- Writing a value through an exclusive view at address `a`. -/
def Mem.write {T : Type} (m : Mem T) (a : Addr) (v : T) : Mem T :=
  fun x => if x = a then v else m x

/-- The method `TCellOwner::rw` (tcell.rs lines 82-84) followed by an
update through the returned exclusive view, as in the crate tests
(`*owner.rw(&c) += 1`): obtaining the view involves no runtime check, and
the write lands at the address of the cell. -/
def TCellOwner.rwUpdate {T : Type} (m : Mem T) (a : Addr) (f : T → T) : Mem T :=
  Mem.write m a (f (m a))

/-- The method `TCellOwner::rw2` (tcell.rs lines 89-99): it asserts that
the two cell references have distinct addresses, panicking otherwise
(`none`), and then returns the two exclusive views (their addresses). -/
def TCellOwner.rw2 (a1 a2 : Addr) : Option (Addr × Addr) :=
  if a1 ≠ a2 then some (a1, a2) else none

/-- The method `TCellOwner::rw3` (tcell.rs lines 104-123): it asserts the
three pairwise address inequalities `a1 != a2 && a2 != a3 && a3 != a1`,
panicking otherwise (`none`), and then returns the three exclusive views. -/
def TCellOwner.rw3 (a1 a2 a3 : Addr) : Option (Addr × Addr × Addr) :=
  if a1 ≠ a2 ∧ a2 ≠ a3 ∧ a3 ≠ a1 then some (a1, a2, a3) else none

/-- The doctest usage of `rw2` (doctest_tcell.rs lines 137-140): obtain
both views, write `f1` through the first and `f2` through the second; the
aliasing check runs before any access to cell storage, so on the panic the
memory is left exactly as it was. -/
def TCellOwner.rw2Update {T : Type} (m : Mem T) (a1 a2 : Addr) (f1 f2 : T → T) :
    Option Unit × Mem T :=
  match TCellOwner.rw2 a1 a2 with
  | none => (none, m)
  | some (v1, v2) =>
    let m1 := Mem.write m v1 (f1 (m v1))
    (some (), Mem.write m1 v2 (f2 (m1 v2)))

/-- The analogous triple-write usage of `rw3`: obtain the three views and
write through each; the pairwise checks run before any access to cell
storage, so on the panic the memory is left exactly as it was. -/
def TCellOwner.rw3Update {T : Type} (m : Mem T) (a1 a2 a3 : Addr)
    (f1 f2 f3 : T → T) : Option Unit × Mem T :=
  match TCellOwner.rw3 a1 a2 a3 with
  | none => (none, m)
  | some (v1, v2, v3) =>
    let m1 := Mem.write m v1 (f1 (m v1))
    let m2 := Mem.write m1 v2 (f2 (m1 v2))
    (some (), Mem.write m2 v3 (f3 (m2 v3)))

/-- Reading several cells through `ro` in sequence (repeated read-shares
of the same owner, doctest_tcell.rs lines 187-191). -/
def TCellOwner.roMany {T : Type} (m : Mem T) (addrs : List Addr) : List T :=
  addrs.map (fun a => TCellOwner.ro m a)

/-- The owner value `ThreadLocalSingletonOwner` (tlcell_impl.rs line 11):
it holds only a `PhantomData` marker, so it carries no runtime data. -/
structure ThreadLocalSingletonOwner

/-- The proxy value `ThreadLocalSingletonProxy` (tlcell_impl.rs line 13):
it holds only a `PhantomData` marker, so it carries no runtime data. -/
structure ThreadLocalSingletonProxy

/-- Modelled from the spec: the generic `ValueCell` type lives in the crate
root, which is not under src/; per the spec it pairs a validation artifact
(the proxy made by the owner) with the stored value. -/
structure ValueCell (T : Type) where
  proxy : ThreadLocalSingletonProxy
  value : T

/-- The method `ValueCellOwner::validate_proxy` for
`ThreadLocalSingletonOwner` (tlcell_impl.rs lines 82-85): it is the
constant `true`. -/
def validate_proxy (_o : ThreadLocalSingletonOwner)
    (_p : ThreadLocalSingletonProxy) : Bool :=
  true

/-- The method `ValueCellOwner::make_proxy` for `ThreadLocalSingletonOwner`
(tlcell_impl.rs lines 87-90): it builds the `PhantomData` proxy. -/
def make_proxy (_o : ThreadLocalSingletonOwner) : ThreadLocalSingletonProxy :=
  ⟨⟩

/-- Modelled from the spec: the generic `ValueCellOwner::cell` method lives
in the crate root, which is not under src/; per the spec it is a
convenience constructor that builds a cell holding the value, using the
owner reference purely to fix the marker type (here, to make the proxy),
not as an access check. -/
def ValueCellOwner.cell {T : Type} (o : ThreadLocalSingletonOwner) (v : T) :
    ValueCell T :=
  { proxy := make_proxy o, value := v }

/-- Modelled from the spec: the generic borrow path `ValueCellOwner::ro`
lives in the crate root, which is not under src/; per the spec the generic
layer validates the cell proxy against the owner before granting the
shared view, and a failed validation is the fatal condition (`none`). -/
def ValueCellOwner.ro {T : Type} (o : ThreadLocalSingletonOwner)
    (c : ValueCell T) : Option T :=
  if validate_proxy o c.proxy then some c.value else none

/-- The function `ThreadLocalSingletonOwner::new` (tlcell_impl.rs lines
25-34): it inserts the `TypeId` of the marker into the thread-local
`OWNERS` set and asserts that the insertion was fresh, panicking otherwise
(`none`).  The second component is the registry as left behind. -/
def ThreadLocalSingletonOwner.new (mark : TypeId) (owners : Registry) :
    Option ThreadLocalSingletonOwner × Registry :=
  let r := hsInsert owners mark
  (if r.1 then some ⟨⟩ else none, r.2)

/-- Destruction of a `ThreadLocalSingletonOwner`: tlcell_impl.rs declares
no `Drop` impl for this type, and the thread-local `OWNERS` set is private
to that module (so no other module of the crate can remove from it), hence
dropping the owner leaves the registry unchanged. -/
def ThreadLocalSingletonOwner.dropOwner (owners : Registry) : Registry :=
  owners

/-- The cell type alias `TLCell` (tlcell_impl.rs line 9) with its
constructor `TLCell::new` (tlcell_impl.rs lines 72-77): it builds a
`ThreadLocalSingletonOwner` value directly with the raw record constructor
(performing no `OWNERS` insertion) and calls `cell` on it. -/
def TLCell.new {T : Type} (v : T) : ValueCell T :=
  ValueCellOwner.cell ⟨⟩ v

/-- The constructor `TLCell::new` with the thread registry threaded
through: the body (tlcell_impl.rs lines 72-77) builds the owner value with
the raw constructor and only constructs records, never touching the
thread-local `OWNERS` set, so the registry passes through untouched. -/
def TLCell.newSt {T : Type} (v : T) (owners : Registry) :
    ValueCell T × Registry :=
  (TLCell.new v, owners)

/-- An operating-system thread identifier. -/
abbrev ThreadId := Nat

/-- The `thread_local!` registries: each thread has its own copy of the
singleton set. -/
abbrev ThreadRegs := ThreadId → Registry

/-- The function `TCellOwner::new` executed in thread `t`: only the copy
of the thread-local `SINGLETON_CHECK` set belonging to thread `t` is
consulted and updated. -/
def TCellOwner.newInThread (t : ThreadId) (q : TypeId) (regs : ThreadRegs) :
    Option TCellOwner × ThreadRegs :=
  let r := TCellOwner.new q (regs t)
  (r.1, fun u => if u = t then r.2 else regs u)

/-- The function `ThreadLocalSingletonOwner::new` executed in thread `t`:
only the copy of the thread-local `OWNERS` set belonging to thread `t` is
consulted and updated. -/
def ThreadLocalSingletonOwner.newInThread (t : ThreadId) (q : TypeId)
    (regs : ThreadRegs) : Option ThreadLocalSingletonOwner × ThreadRegs :=
  let r := ThreadLocalSingletonOwner.new q (regs t)
  (r.1, fun u => if u = t then r.2 else regs u)

/-- Iterated create-then-drop cycles for `TCellOwner` with marker `q`:
each cycle runs `TCellOwner::new` and then drops the returned owner. -/
def TCellOwner.cycle (q : TypeId) : Nat → Registry → Option Registry
  | 0, reg => some reg
  | Nat.succ n, reg =>
    match TCellOwner.new q reg with
    | (some _, reg2) => TCellOwner.cycle q n (TCellOwner.dropOwner q reg2)
    | (none, _) => none

/-- Removing a marker from a registry with `HashSet::remove` really removes
it. -/
theorem not_mem_hsRemove (reg : Registry) (q : TypeId) : q ∉ hsRemove reg q := by
  simp [hsRemove, List.mem_filter]

/-- Claim C1: for every marker, owner construction succeeds returning a
fresh token exactly when the marker identity is not in the scope registry,
inserts the identity on success, and panics when the identity is already
present (for both `TCellOwner::new` and `ThreadLocalSingletonOwner::new`);
owners for two different markers may be created so as to be live
simultaneously in the same scope. -/
theorem owner_new_singleton_registry (q q1 q2 : TypeId) (reg : Registry)
    (hq : q1 ≠ q2) (h1 : q1 ∉ reg) (h2 : q2 ∉ reg) :
    ((TCellOwner.new q reg).1.isSome = true ↔ q ∉ reg)
    ∧ (q ∉ reg → q ∈ (TCellOwner.new q reg).2)
    ∧ (q ∈ reg → (TCellOwner.new q reg).1 = none)
    ∧ ((ThreadLocalSingletonOwner.new q reg).1.isSome = true ↔ q ∉ reg)
    ∧ (q ∉ reg → q ∈ (ThreadLocalSingletonOwner.new q reg).2)
    ∧ (q ∈ reg → (ThreadLocalSingletonOwner.new q reg).1 = none)
    ∧ ((TCellOwner.new q1 reg).1.isSome = true
        ∧ (TCellOwner.new q2 (TCellOwner.new q1 reg).2).1.isSome = true) := by
  have hm2 : q2 ∉ q1 :: reg := by
    intro hmem
    rcases List.mem_cons.mp hmem with h | h
    · exact hq h.symm
    · exact h2 h
  by_cases hmem : q ∈ reg <;>
    simp [TCellOwner.new, ThreadLocalSingletonOwner.new, hsInsert,
      hmem, h1, hm2]

/-- Witness for `owner_new_singleton_registry`: with an empty registry,
owners for the two distinct markers 3 and 4 are both created successfully. -/
theorem owner_new_singleton_registry_witness :
    (TCellOwner.new 3 []).1.isSome = true
    ∧ (TCellOwner.new 4 (TCellOwner.new 3 []).2).1.isSome = true :=
  (owner_new_singleton_registry 9 3 4 [] (by decide) (by simp) (by simp)).2.2.2.2.2.2

/-- Claim C4: `rw2` panics exactly when the two cell references denote the
same address, and returns the two exclusive views otherwise. -/
theorem rw2_same_address_aborts (a1 a2 : Addr) :
    (TCellOwner.rw2 a1 a2 = none ↔ a1 = a2)
    ∧ (a1 ≠ a2 → TCellOwner.rw2 a1 a2 = some (a1, a2)) := by
  constructor
  · by_cases h : a1 = a2 <;> simp [TCellOwner.rw2, h]
  · intro h
    simp [TCellOwner.rw2, h]

/-- Witness for `rw2_same_address_aborts`: distinct addresses 0 and 1 give
the two views. -/
theorem rw2_same_address_aborts_witness :
    TCellOwner.rw2 0 1 = some (0, 1) :=
  (rw2_same_address_aborts 0 1).2 (by decide)

/-- Claim C3: `rw3` panics exactly when some pair of the three cell
references coincides, and with pairwise distinct references it returns
three simultaneously usable exclusive views: writing through all three and
reading back through `ro` shows each written value. -/
theorem rw3_pairwise_distinctness (T : Type) (m : Mem T) (a1 a2 a3 : Addr)
    (f1 f2 f3 : T → T) :
    (TCellOwner.rw3 a1 a2 a3 = none ↔ (a1 = a2 ∨ a2 = a3 ∨ a3 = a1))
    ∧ (a1 ≠ a2 → a2 ≠ a3 → a3 ≠ a1 →
        TCellOwner.rw3 a1 a2 a3 = some (a1, a2, a3)
        ∧ (TCellOwner.rw3Update m a1 a2 a3 f1 f2 f3).1 = some ()
        ∧ TCellOwner.ro (TCellOwner.rw3Update m a1 a2 a3 f1 f2 f3).2 a1 = f1 (m a1)
        ∧ TCellOwner.ro (TCellOwner.rw3Update m a1 a2 a3 f1 f2 f3).2 a2 = f2 (m a2)
        ∧ TCellOwner.ro (TCellOwner.rw3Update m a1 a2 a3 f1 f2 f3).2 a3 = f3 (m a3)) := by
  constructor
  · constructor
    · intro hnone
      by_contra hcon
      push_neg at hcon
      obtain ⟨h12, h23, h31⟩ := hcon
      simp [TCellOwner.rw3, h12, h23, h31] at hnone
    · intro hdisj
      rcases hdisj with h | h | h <;> simp [TCellOwner.rw3, h]
  · intro h12 h23 h31
    refine ⟨by simp [TCellOwner.rw3, h12, h23, h31], ?_, ?_, ?_, ?_⟩ <;>
      simp [TCellOwner.rw3Update, TCellOwner.rw3, TCellOwner.ro, Mem.write,
        h12, h23, h31, Ne.symm h12, Ne.symm h23, Ne.symm h31]

/-- Witness for `rw3_pairwise_distinctness`: the pairwise distinct
addresses 0, 1, 2 give the three views. -/
theorem rw3_pairwise_distinctness_witness :
    TCellOwner.rw3 0 1 2 = some (0, 1, 2) :=
  ((rw3_pairwise_distinctness Nat (fun _ => 0) 0 1 2 id id id).2
    (by decide) (by decide) (by decide)).1

/-- Claim C5: for two distinct cells under one live owner, `rw2` succeeds
and the two views are independently mutable: writing through both and then
reading each cell back through `ro` shows exactly the two written values. -/
theorem rw2_distinct_independent_updates (T : Type) (m : Mem T) (a1 a2 : Addr)
    (f1 f2 : T → T) (h : a1 ≠ a2) :
    (TCellOwner.rw2Update m a1 a2 f1 f2).1 = some ()
    ∧ TCellOwner.ro (TCellOwner.rw2Update m a1 a2 f1 f2).2 a1 = f1 (m a1)
    ∧ TCellOwner.ro (TCellOwner.rw2Update m a1 a2 f1 f2).2 a2 = f2 (m a2) := by
  refine ⟨?_, ?_, ?_⟩ <;>
    simp [TCellOwner.rw2Update, TCellOwner.rw2, TCellOwner.ro, Mem.write,
      h, Ne.symm h]

/-- Witness for `rw2_distinct_independent_updates`: cells holding 100 and
200, incremented by 1 and by 2 through the two views; the read-backs sum
to 303. -/
theorem rw2_distinct_independent_updates_witness :
    TCellOwner.ro ((TCellOwner.rw2Update
        (fun a : Addr => if a = 0 then 100 else 200) 0 1
        (fun v => v + 1) (fun v => v + 2)).2) 0
      + TCellOwner.ro ((TCellOwner.rw2Update
        (fun a : Addr => if a = 0 then 100 else 200) 0 1
        (fun v => v + 1) (fun v => v + 2)).2) 1 = 303 := by
  have h := rw2_distinct_independent_updates Nat
    (fun a : Addr => if a = 0 then 100 else 200) 0 1
    (fun v => v + 1) (fun v => v + 2) (by decide)
  rw [h.2.1, h.2.2]
  norm_num

/-- Helper: create-then-drop cycles for `TCellOwner` succeed from any
registry not containing the marker. -/
theorem TCellOwner.cycle_isSome (q : TypeId) :
    ∀ (n : Nat) (reg : Registry), q ∉ reg →
      (TCellOwner.cycle q n reg).isSome = true
  | 0, _, _ => rfl
  | Nat.succ n, reg, h => by
    have hnew : TCellOwner.new q reg = (some ⟨⟩, q :: reg) := by
      simp [TCellOwner.new, hsInsert, h]
    simp only [TCellOwner.cycle, hnew]
    exact TCellOwner.cycle_isSome q n _ (not_mem_hsRemove (q :: reg) q)

/-- Claim C2 (divergence): for `TCellOwner`, dropping the owner removes the
marker from the registry, so a new owner after a drop, and any number of
sequential create-then-drop cycles, always succeed; for
`ThreadLocalSingletonOwner` there is no `Drop` impl, the marker (here 5)
stays registered after the owner is destroyed, and a second `new` in the
same thread panics instead of succeeding as the claim requires. -/
theorem owner_drop_reregistration :
    (ThreadLocalSingletonOwner.new 5
        (ThreadLocalSingletonOwner.dropOwner
          (ThreadLocalSingletonOwner.new 5 []).2)).1 = none
    ∧ (∀ (q : TypeId) (reg : Registry),
        (TCellOwner.new q (TCellOwner.dropOwner q reg)).1.isSome = true)
    ∧ (∀ (q : TypeId) (n : Nat) (reg : Registry),
        (TCellOwner.cycle q n (TCellOwner.dropOwner q reg)).isSome = true) := by
  refine ⟨rfl, ?_, ?_⟩
  · intro q reg
    simp [TCellOwner.new, hsInsert, TCellOwner.dropOwner,
      not_mem_hsRemove reg q]
  · intro q n reg
    exact TCellOwner.cycle_isSome q n _ (not_mem_hsRemove reg q)

/-- Claim C6: cell construction always succeeds, stores exactly the given
value (reading the fresh cell back gives the value, directly and through
the generic borrow path for any live owner), and leaves the scope registry
untouched, for both `TCell::new` and `TLCell::new`. -/
theorem cell_new_stores_value_pure (T : Type) (v : T) (reg : Registry) :
    TCellOwner.roCell (TCell.new v) = v
    ∧ (∀ o : ThreadLocalSingletonOwner,
        ValueCellOwner.ro o (TLCell.new v) = some v)
    ∧ (TLCell.new v).value = v
    ∧ (TCell.newSt v reg).1.value = v
    ∧ (TCell.newSt v reg).2 = reg
    ∧ (TLCell.newSt v reg).1.value = v
    ∧ (TLCell.newSt v reg).2 = reg := by
  refine ⟨rfl, ?_, rfl, rfl, rfl, rfl, rfl⟩
  intro o
  rfl

/-- Claim C7: `owner.cell(v)` is equivalent to direct cell construction in
both implementations, and its result does not depend on the owner value at
all. -/
theorem owner_cell_equiv_direct (T : Type) (v : T) :
    (∀ o : TCellOwner, TCellOwner.cell o v = TCell.new v)
    ∧ (∀ o : ThreadLocalSingletonOwner,
        ValueCellOwner.cell o v = TLCell.new v)
    ∧ (∀ o1 o2 : ThreadLocalSingletonOwner,
        ValueCellOwner.cell o1 v = ValueCellOwner.cell o2 v) :=
  ⟨fun _ => rfl, fun _ => rfl, fun _ _ => rfl⟩

/-- Claim C8: the only runtime failure modes are the construction-time
singleton check and the rw2 / rw3 aliasing check: `ro` and `rw` always
succeed with no runtime check (single reads, repeated read-shares, and
write-throughs), disjoint-cell `rw2` borrows succeed, and the proxy
validation of the generic borrow path for the thread-local singleton owner
is the constant `true`, so the generic `ro` always succeeds. -/
theorem ro_rw_always_succeed (T : Type) (m : Mem T) (a : Addr)
    (addrs : List Addr) (o : ThreadLocalSingletonOwner) (c : ValueCell T)
    (f : T → T) (a1 a2 : Addr) (h : a1 ≠ a2) :
    validate_proxy o c.proxy = true
    ∧ ValueCellOwner.ro o c = some c.value
    ∧ TCellOwner.ro m a = m a
    ∧ TCellOwner.roMany m addrs = addrs.map m
    ∧ TCellOwner.rwUpdate m a f a = f (m a)
    ∧ (TCellOwner.rw2 a1 a2).isSome = true := by
  refine ⟨rfl, rfl, rfl, rfl, ?_, ?_⟩
  · simp [TCellOwner.rwUpdate, Mem.write]
  · simp [TCellOwner.rw2, h]

/-- Witness for `ro_rw_always_succeed`: a generic read of a cell holding 5
succeeds, and a disjoint-cell `rw2` borrow succeeds. -/
theorem ro_rw_always_succeed_witness :
    ValueCellOwner.ro ⟨⟩ (⟨⟨⟩, 5⟩ : ValueCell Nat) = some 5
    ∧ (TCellOwner.rw2 0 1).isSome = true := by
  have h := ro_rw_always_succeed Nat (fun _ => 5) 0 [] ⟨⟩ ⟨⟨⟩, 5⟩ id 0 1
    (by decide)
  exact ⟨h.2.1, h.2.2.2.2.2⟩

/-- Claim C9: the singleton registry of the thread-scoped owner is
per-thread: a live owner for a marker in thread `t1` does not prevent
constructing an owner for the same marker in a different thread `t2`, and
afterwards the marker is registered in both threads simultaneously (for
both owner implementations). -/
theorem registry_is_per_thread (t1 t2 : ThreadId) (q : TypeId)
    (regs : ThreadRegs) (hne : t1 ≠ t2)
    (h1 : q ∉ regs t1) (h2 : q ∉ regs t2) :
    (TCellOwner.newInThread t1 q regs).1.isSome = true
    ∧ (TCellOwner.newInThread t2 q
        (TCellOwner.newInThread t1 q regs).2).1.isSome = true
    ∧ q ∈ (TCellOwner.newInThread t2 q
        (TCellOwner.newInThread t1 q regs).2).2 t1
    ∧ q ∈ (TCellOwner.newInThread t2 q
        (TCellOwner.newInThread t1 q regs).2).2 t2
    ∧ (ThreadLocalSingletonOwner.newInThread t1 q regs).1.isSome = true
    ∧ (ThreadLocalSingletonOwner.newInThread t2 q
        (ThreadLocalSingletonOwner.newInThread t1 q regs).2).1.isSome = true := by
  refine ⟨?_, ?_, ?_, ?_, ?_, ?_⟩ <;>
    simp [TCellOwner.newInThread, TCellOwner.new,
      ThreadLocalSingletonOwner.newInThread, ThreadLocalSingletonOwner.new,
      hsInsert, h1, h2, hne, Ne.symm hne]

/-- Witness for `registry_is_per_thread`: with empty registries in all
threads, owners for marker 7 are created in thread 0 and then in thread 1,
both successfully. -/
theorem registry_is_per_thread_witness :
    (TCellOwner.newInThread 0 7 (fun _ => [])).1.isSome = true
    ∧ (TCellOwner.newInThread 1 7
        (TCellOwner.newInThread 0 7 (fun _ => [])).2).1.isSome = true := by
  have h := registry_is_per_thread 0 1 7 (fun _ => []) (by decide)
    (by simp) (by simp)
  exact ⟨h.1, h.2.1⟩

/-- Claim C10: an aborting operation leaves all observable state unchanged:
a failed owner construction leaves the scope registry exactly as it was
(for both owner implementations, since a failed check-and-insert does not
change the set), and failed `rw2` / `rw3` calls leave every cell content
unchanged, the distinctness checks running before any access to cell
storage. -/
theorem abort_preserves_state (q : TypeId) (reg : Registry) (T : Type)
    (m : Mem T) (a1 a2 a3 : Addr) (f1 f2 f3 : T → T)
    (hq : q ∈ reg) (h2 : TCellOwner.rw2 a1 a2 = none)
    (h3 : TCellOwner.rw3 a1 a2 a3 = none) :
    (TCellOwner.new q reg).1 = none
    ∧ (TCellOwner.new q reg).2 = reg
    ∧ (ThreadLocalSingletonOwner.new q reg).1 = none
    ∧ (ThreadLocalSingletonOwner.new q reg).2 = reg
    ∧ (TCellOwner.rw2Update m a1 a2 f1 f2).1 = none
    ∧ (TCellOwner.rw2Update m a1 a2 f1 f2).2 = m
    ∧ (TCellOwner.rw3Update m a1 a2 a3 f1 f2 f3).1 = none
    ∧ (TCellOwner.rw3Update m a1 a2 a3 f1 f2 f3).2 = m := by
  refine ⟨?_, ?_, ?_, ?_, ?_, ?_, ?_, ?_⟩ <;>
    simp [TCellOwner.new, ThreadLocalSingletonOwner.new, hsInsert, hq,
      TCellOwner.rw2Update, TCellOwner.rw3Update, h2, h3]

/-- Witness for `abort_preserves_state`: marker 1 already registered, and
the aliased call `rw2(c, c)` at address 0; the registry and the memory are
unchanged by the failed calls. -/
theorem abort_preserves_state_witness :
    (TCellOwner.new 1 [1]).1 = none
    ∧ (TCellOwner.new 1 [1]).2 = [1]
    ∧ (TCellOwner.rw2Update (fun _ : Addr => (0 : Nat)) 0 0 id id).1 = none := by
  have h := abort_preserves_state 1 [1] Nat (fun _ => 0) 0 0 0 id id id
    (by decide) (by decide) (by decide)
  exact ⟨h.1, h.2.1, h.2.2.2.2.1⟩

end QCell
